import Mathlib

/-!
Verification development for frc3512/Robot-2014.

Part 1 embeds the GearBox template class (src/Subsystems/GearBox.inl,
src/src/Subsystems/GearBox.hpp).  The WPILib collaborators (Encoder,
Solenoid, SpeedController) and the repository's PIDController are modelled
as state records holding exactly the data GearBox reads and writes through
their member calls.

Part 2 embeds the trapezoidal motion-profile engine.  Its member function
definitions (TrapezoidProfile.cpp, ProfileBase) are not under src/ — only
the class declaration src/src/MotionProfile/TrapezoidProfile.hpp is — so
the engine is modelled from the spec (sections 3, 4.2, 7), faithful to its
formulas, over the real numbers.
-/

/-! ## Part 1: GearBox -/

/-- State of the repository's PIDController as observed through the calls
GearBox makes on it: IsEnabled, Enable, Disable, SetSetpoint, GetSetpoint,
SetPID, GetP, GetI, GetD. -/
structure PIDCtl where
  enabled : Bool
  setpoint : ℚ
  kP : ℚ
  kI : ℚ
  kD : ℚ
  kF : ℚ
deriving DecidableEq

/-- State of the WPILib Encoder as observed by GearBox: GetDistance,
GetRate, Reset. -/
structure Enc where
  dist : ℚ
  rate : ℚ
deriving DecidableEq

/-- GearBox template-class state (fields of src/src/Subsystems/GearBox.hpp).
m_pid and m_encoder are meaningful only when m_havePID is true (in the
source they are non-null exactly then); m_shifter is the solenoid output
when a solenoid exists; m_motors holds the last value Set on each motor
controller. -/
structure GearBoxState where
  m_havePID : Bool
  m_pid : PIDCtl
  m_encoder : Enc
  m_shifter : Option Bool
  m_isReversed : Bool
  m_motors : List ℚ
deriving DecidableEq

/-- GearBox constructor (GearBox.inl): the encoder and PID controller are
created iff encA != 0 and encB != 0, and in that case the PID controller is
enabled at the end; the solenoid is created iff shifterChan != 0; one motor
controller per nonzero motor channel, each initially at output 0. -/
def gearBoxNew (shifterChan encA encB motor1 motor2 motor3 : ℕ) : GearBoxState :=
  { m_havePID := encA != 0 && encB != 0
    m_pid := { enabled := encA != 0 && encB != 0, setpoint := 0,
               kP := 0, kI := 0, kD := 0, kF := 0 }
    m_encoder := { dist := 0, rate := 0 }
    m_shifter := if shifterChan != 0 then some false else none
    m_isReversed := false
    m_motors := (if motor1 != 0 then [(0 : ℚ)] else []) ++
                (if motor2 != 0 then [(0 : ℚ)] else []) ++
                (if motor3 != 0 then [(0 : ℚ)] else []) }

/-- GearBox::setSetpoint: if ( !m_pid->IsEnabled() && m_havePID ) then the
controller is enabled and the new setpoint applied; otherwise nothing. -/
def GearBoxState.setSetpoint (s : GearBoxState) (sp : ℚ) : GearBoxState :=
  if !s.m_pid.enabled && s.m_havePID then
    { s with m_pid := { s.m_pid with enabled := true, setpoint := sp } }
  else s

/-- GearBox::getSetpoint: the PID setpoint when m_havePID, else 0. -/
def GearBoxState.getSetpoint (s : GearBoxState) : ℚ :=
  if s.m_havePID then s.m_pid.setpoint else 0

/-- GearBox::PIDWrite: sets every motor to output, negated when reversed. -/
def GearBoxState.PIDWrite (s : GearBoxState) (output : ℚ) : GearBoxState :=
  { s with m_motors :=
      s.m_motors.map (fun _ => if !s.m_isReversed then output else -output) }

/-- GearBox::setManual: disables the PID controller when it is enabled, then
writes the value to the motors. -/
def GearBoxState.setManual (s : GearBoxState) (value : ℚ) : GearBoxState :=
  let s1 := if s.m_havePID then
              (if s.m_pid.enabled then
                 { s with m_pid := { s.m_pid with enabled := false } }
               else s)
            else s
  s1.PIDWrite value

/-- GearBox::setPID: sets P, I, D gains when m_havePID, else does nothing. -/
def GearBoxState.setPID (s : GearBoxState) (p i d : ℚ) : GearBoxState :=
  if s.m_havePID then
    { s with m_pid := { s.m_pid with kP := p, kI := i, kD := d } }
  else s

/-- GearBox::setF: SetPID( GetP, GetI, GetD, f ) when m_havePID, else
nothing. -/
def GearBoxState.setF (s : GearBoxState) (f : ℚ) : GearBoxState :=
  if s.m_havePID then
    { s with m_pid := { s.m_pid with kF := f } }
  else s

/-- GearBox::resetEncoder: Encoder::Reset (distance back to 0) when
m_havePID, else nothing. -/
def GearBoxState.resetEncoder (s : GearBoxState) : GearBoxState :=
  if s.m_havePID then { s with m_encoder := { s.m_encoder with dist := 0 } }
  else s

/-- GearBox::getDistance: encoder distance when m_havePID, else 0. -/
def GearBoxState.getDistance (s : GearBoxState) : ℚ :=
  if s.m_havePID then s.m_encoder.dist else 0

/-- GearBox::getRate: encoder rate when m_havePID, else 0. -/
def GearBoxState.getRate (s : GearBoxState) : ℚ :=
  if s.m_havePID then s.m_encoder.rate else 0

/-- GearBox::setReversed. -/
def GearBoxState.setReversed (s : GearBoxState) (reverse : Bool) : GearBoxState :=
  { s with m_isReversed := reverse }

/-- GearBox::setGear: when a solenoid exists and m_havePID, the gear is
written only when (the PID controller is enabled and the encoder rate
exceeds 4) or the PID controller is disabled; when a solenoid exists and
there is no PID, the gear is always written. -/
def GearBoxState.setGear (s : GearBoxState) (gear : Bool) : GearBoxState :=
  match s.m_shifter with
  | none => s
  | some _ =>
    if s.m_havePID then
      if (s.m_pid.enabled ∧ s.m_encoder.rate > 4) ∨ ¬s.m_pid.enabled then
        { s with m_shifter := some gear }
      else s
    else { s with m_shifter := some gear }

/-- GearBox::getGear: solenoid state when one exists, else false. -/
def GearBoxState.getGear (s : GearBoxState) : Bool :=
  s.m_shifter.getD false

/-- A public GearBox call, or an environment step in which the encoder
hardware reports new readings. -/
inductive GearBoxOp where
  | opSetSetpoint (sp : ℚ)
  | opSetManual (v : ℚ)
  | opSetPIDGains (p i d : ℚ)
  | opSetF (f : ℚ)
  | opResetEncoder
  | opSetReversed (b : Bool)
  | opSetGear (b : Bool)
  | opSensor (dist rate : ℚ)

/-- Apply one call / environment step to a GearBox state. -/
def GearBoxState.applyOp (s : GearBoxState) : GearBoxOp → GearBoxState
  | .opSetSetpoint sp => s.setSetpoint sp
  | .opSetManual v => s.setManual v
  | .opSetPIDGains p i d => s.setPID p i d
  | .opSetF f => s.setF f
  | .opResetEncoder => s.resetEncoder
  | .opSetReversed b => s.setReversed b
  | .opSetGear b => s.setGear b
  | .opSensor d r => { s with m_encoder := { dist := d, rate := r } }

/-- Run a sequence of calls / environment steps. -/
def GearBoxState.run (s : GearBoxState) : List GearBoxOp → GearBoxState
  | [] => s
  | op :: ops => (s.applyOp op).run ops

/-- A concrete GearBox state: PID present but disabled, encoder at rest,
solenoid in low gear. -/
def gearBoxExample : GearBoxState :=
  { m_havePID := true
    m_pid := { enabled := false, setpoint := 0, kP := 0, kI := 0, kD := 0, kF := 0 }
    m_encoder := { dist := 0, rate := 0 }
    m_shifter := some false
    m_isReversed := false
    m_motors := [0] }

/-! ## Part 2: TrapezoidProfile (modelled from the spec) -/

/-- SetpointMode from src/src/MotionProfile/TrapezoidProfile.hpp:
typedef enum { distance, velocity } SetpointMode. -/
inductive SetpointMode where
  | distance
  | velocity
deriving DecidableEq

/-- Modelled from the spec: TrapezoidProfile member definitions
(TrapezoidProfile.cpp, ProfileBase) are missing from src/; only the class
declaration is present.  Configuration and session state follow spec
section 3: maxVelocity and timeToMaxVelocity are the configuration; sign,
accelTime, cruiseTime, totalTime, startTime, originSource and mode are the
session; profileDist records the goal distance magnitude used by the
phase-C and end-of-profile formulas; lastTime tracks the most recently
queried time for atGoal. -/
structure TrapezoidProfile where
  maxVelocity : ℝ
  timeToMaxVelocity : ℝ
  sign : ℝ
  accelTime : ℝ
  cruiseTime : ℝ
  totalTime : ℝ
  startTime : ℝ
  lastTime : ℝ
  originSource : ℝ
  profileDist : ℝ
  mode : SetpointMode

/-- Modelled from the spec: derived acceleration = maxVelocity /
timeToMaxVelocity (spec section 3). -/
noncomputable def TrapezoidProfile.acceleration (s : TrapezoidProfile) : ℝ :=
  s.maxVelocity / s.timeToMaxVelocity

/-- Sign of the goal delta: +1, -1, or 0 when the delta is 0 (spec
section 4.2 step 1). -/
noncomputable def realSign (x : ℝ) : ℝ :=
  if x > 0 then 1 else if x < 0 then -1 else 0

/-- Modelled from the spec: ramp duration selected by setGoal (spec
section 4.2 steps 3-5) as a function of the configuration and the goal
distance d = the absolute delta.  Degenerate zero-distance sessions get 0;
a distance of at least maxVelocity * timeToMaxVelocity gives the
trapezoidal ramp time timeToMaxVelocity; shorter distances give the
triangular peak time sqrt(d * acceleration) / acceleration. -/
noncomputable def profileAccelTime (maxV t2m d : ℝ) : ℝ :=
  if d = 0 then 0
  else if d ≥ maxV * t2m then t2m
  else Real.sqrt (d * (maxV / t2m)) / (maxV / t2m)

/-- Modelled from the spec: cruise duration selected by setGoal (spec
section 4.2 steps 3-5): zero except in the trapezoidal case, where it is
(d - maxV * t2m) / maxV. -/
noncomputable def profileCruiseTime (maxV t2m d : ℝ) : ℝ :=
  if d = 0 then 0
  else if d ≥ maxV * t2m then (d - maxV * t2m) / maxV
  else 0

/-- Modelled from the spec: totalTime = 2 * accelTime + cruiseTime (spec
section 3). -/
noncomputable def profileTotalTime (maxV t2m d : ℝ) : ℝ :=
  2 * profileAccelTime maxV t2m d + profileCruiseTime maxV t2m d

/-- Modelled from the spec: setGoal(goal, curSource, t) re-initializes the
session (spec section 4.2 steps 1-6) and returns the setpoint at elapsed 0:
curSource in distance mode, 0 in velocity mode (step 7).  t initializes
both startTime and lastTime (the header comment on setGoal says t
initializes m_lastTime). -/
noncomputable def TrapezoidProfile.setGoal (s : TrapezoidProfile) (goal curSource t : ℝ) :
    TrapezoidProfile × ℝ :=
  ({ s with
      sign := realSign (goal - curSource)
      accelTime := profileAccelTime s.maxVelocity s.timeToMaxVelocity |goal - curSource|
      cruiseTime := profileCruiseTime s.maxVelocity s.timeToMaxVelocity |goal - curSource|
      totalTime := profileTotalTime s.maxVelocity s.timeToMaxVelocity |goal - curSource|
      startTime := t
      lastTime := t
      originSource := curSource
      profileDist := |goal - curSource| },
   if s.mode = SetpointMode.distance then curSource else 0)

/-- Modelled from the spec: phase-wise velocity magnitude at clamped elapsed
time e (spec section 4.2 phases A, B, C). -/
noncomputable def TrapezoidProfile.velAt (s : TrapezoidProfile) (e : ℝ) : ℝ :=
  if e < s.accelTime then s.acceleration * e
  else if e < s.accelTime + s.cruiseTime then s.maxVelocity
  else s.acceleration * (s.totalTime - e)

/-- Modelled from the spec: phase-wise position offset magnitude at clamped
elapsed time e (spec section 4.2 phases A, B, C). -/
noncomputable def TrapezoidProfile.posAt (s : TrapezoidProfile) (e : ℝ) : ℝ :=
  if e < s.accelTime then s.acceleration * e ^ 2 / 2
  else if e < s.accelTime + s.cruiseTime then
    s.acceleration * s.accelTime ^ 2 / 2 + s.maxVelocity * (e - s.accelTime)
  else s.profileDist - s.acceleration * (s.totalTime - e) ^ 2 / 2

/-- Modelled from the spec: velocity-mode setpoint magnitude — the
acceleration ramp up to the peak, which is then held rather than
decelerated (spec section 4.2, velocity mode). -/
noncomputable def TrapezoidProfile.velHoldAt (s : TrapezoidProfile) (e : ℝ) : ℝ :=
  if e < s.accelTime then s.acceleration * e else s.acceleration * s.accelTime

/-- Modelled from the spec: elapsed time curTime - startTime clamped to
the interval from 0 to totalTime (spec section 4.2, updateSetpoint). -/
noncomputable def TrapezoidProfile.clampElapsed (s : TrapezoidProfile) (curTime : ℝ) : ℝ :=
  max 0 (min (curTime - s.startTime) s.totalTime)

/-- Modelled from the spec: updateSetpoint evaluates the phase kinematics at
the clamped elapsed time; distance mode returns originSource + sign * pos,
velocity mode returns sign * v with the hold after accelTime; curSetpoint
and curSource are unused by the trapezoidal computation (spec section 4.1);
lastTime is updated so atGoal can use the most recent queried time. -/
noncomputable def TrapezoidProfile.updateSetpoint (s : TrapezoidProfile)
    (curSetpoint curSource curTime : ℝ) : TrapezoidProfile × ℝ :=
  ({ s with lastTime := curTime },
   if s.mode = SetpointMode.distance then
     s.originSource + s.sign * s.posAt (s.clampElapsed curTime)
   else s.sign * s.velHoldAt (s.clampElapsed curTime))

/-- Modelled from the spec: atGoal holds iff the elapsed time at the most
recently queried time is at least totalTime (spec sections 3 and 4.2). -/
def TrapezoidProfile.atGoal (s : TrapezoidProfile) : Prop :=
  s.totalTime ≤ s.lastTime - s.startTime

/-- A profile state carrying a given configuration with an empty session,
as produced by the constructor before any setGoal. -/
def trapProfileCfg (maxV t2m : ℝ) : TrapezoidProfile :=
  { maxVelocity := maxV, timeToMaxVelocity := t2m, sign := 0, accelTime := 0,
    cruiseTime := 0, totalTime := 0, startTime := 0, lastTime := 0,
    originSource := 0, profileDist := 0, mode := SetpointMode.distance }

/-- Modelled from the spec: the constructor rejects maxVelocity <= 0 and
timeToMaxVelocity <= 0 at configuration time (spec section 7,
InvalidParameter), and otherwise stores the values unchanged. -/
noncomputable def mkTrapezoidProfile (maxV t2m : ℝ) : Option TrapezoidProfile :=
  if maxV ≤ 0 ∨ t2m ≤ 0 then none else some (trapProfileCfg maxV t2m)

/-- Modelled from the spec: setMaxVelocity rejects v <= 0 at configuration
time and otherwise stores v unchanged (spec section 7). -/
noncomputable def TrapezoidProfile.setMaxVelocity (s : TrapezoidProfile) (v : ℝ) :
    Option TrapezoidProfile :=
  if v ≤ 0 then none else some { s with maxVelocity := v }

/-- Modelled from the spec: setTimeToMaxV rejects v <= 0 at configuration
time and otherwise stores v unchanged (spec section 7). -/
noncomputable def TrapezoidProfile.setTimeToMaxV (s : TrapezoidProfile) (v : ℝ) :
    Option TrapezoidProfile :=
  if v ≤ 0 then none else some { s with timeToMaxVelocity := v }

/-- setMode from the header: selects distance or velocity semantics. -/
def TrapezoidProfile.setMode (s : TrapezoidProfile) (m : SetpointMode) :
    TrapezoidProfile :=
  { s with mode := m }

/-! ## Helper lemmas -/

lemma applyOp_m_havePID (s : GearBoxState) (op : GearBoxOp) :
    (s.applyOp op).m_havePID = s.m_havePID := by
  cases op <;>
    simp only [GearBoxState.applyOp, GearBoxState.setSetpoint, GearBoxState.setManual,
      GearBoxState.PIDWrite, GearBoxState.setPID, GearBoxState.setF,
      GearBoxState.resetEncoder, GearBoxState.setReversed, GearBoxState.setGear] <;>
    first
    | rfl
    | (split_ifs <;> rfl)
    | (rcases s.m_shifter with _ | g <;> dsimp only <;> (try split_ifs) <;> rfl)

lemma run_m_havePID (s : GearBoxState) (ops : List GearBoxOp) :
    (s.run ops).m_havePID = s.m_havePID := by
  induction ops generalizing s with
  | nil => rfl
  | cons op ops ih =>
    rw [GearBoxState.run, ih, applyOp_m_havePID]

lemma profileAccelTime_nonneg {maxV t2m : ℝ} (hv : 0 < maxV) (ht : 0 < t2m)
    (d : ℝ) : 0 ≤ profileAccelTime maxV t2m d := by
  unfold profileAccelTime
  split_ifs
  · exact le_refl 0
  · exact ht.le
  · exact div_nonneg (Real.sqrt_nonneg _) (div_nonneg hv.le ht.le)

lemma profileCruiseTime_nonneg {maxV t2m : ℝ} (hv : 0 < maxV)
    (d : ℝ) : 0 ≤ profileCruiseTime maxV t2m d := by
  unfold profileCruiseTime
  split_ifs with h1 h2
  · exact le_refl 0
  · exact div_nonneg (by linarith) hv.le
  · exact le_refl 0

lemma profileTotalTime_nonneg {maxV t2m : ℝ} (hv : 0 < maxV) (ht : 0 < t2m)
    (d : ℝ) : 0 ≤ profileTotalTime maxV t2m d := by
  have h1 := profileAccelTime_nonneg hv ht d
  have h2 := @profileCruiseTime_nonneg maxV t2m hv d
  unfold profileTotalTime
  linarith

lemma profileAccelTime_pos {maxV t2m d : ℝ} (hv : 0 < maxV) (ht : 0 < t2m)
    (hd : 0 < d) : 0 < profileAccelTime maxV t2m d := by
  unfold profileAccelTime
  split_ifs with h1 h2
  · exact absurd h1 hd.ne'
  · exact ht
  · exact div_pos (Real.sqrt_pos.mpr (mul_pos hd (div_pos hv ht))) (div_pos hv ht)

lemma profileTotalTime_pos {maxV t2m d : ℝ} (hv : 0 < maxV) (ht : 0 < t2m)
    (hd : 0 < d) : 0 < profileTotalTime maxV t2m d := by
  have h1 := profileAccelTime_pos hv ht hd
  have h2 := @profileCruiseTime_nonneg maxV t2m hv d
  unfold profileTotalTime
  linarith

lemma profileAccelTime_mul_le {maxV t2m : ℝ} (hv : 0 < maxV) (ht : 0 < t2m)
    (d : ℝ) : maxV / t2m * profileAccelTime maxV t2m d ≤ maxV := by
  unfold profileAccelTime
  split_ifs with h1 h2
  · simpa using hv.le
  · rw [div_mul_cancel₀ _ ht.ne']
  · rw [mul_comm, div_mul_cancel₀ _ (div_pos hv ht).ne']
    have hstep : d * (maxV / t2m) ≤ maxV ^ 2 := by
      have hlt : d < maxV * t2m := lt_of_not_le h2
      have ha : 0 < maxV / t2m := div_pos hv ht
      have h3 : d * (maxV / t2m) ≤ maxV * t2m * (maxV / t2m) :=
        mul_le_mul_of_nonneg_right hlt.le ha.le
      have h4 : maxV * t2m * (maxV / t2m) = maxV ^ 2 := by
        field_simp
        ring
      linarith
    calc Real.sqrt (d * (maxV / t2m)) ≤ Real.sqrt (maxV ^ 2) :=
          Real.sqrt_le_sqrt hstep
      _ = maxV := Real.sqrt_sq hv.le

lemma realSign_mul_abs (x : ℝ) : realSign x * |x| = x := by
  unfold realSign
  rcases lt_trichotomy x 0 with h | h | h
  · rw [if_neg (by linarith), if_pos h, abs_of_neg h]
    ring
  · simp [h]
  · rw [if_pos h, abs_of_pos h]
    ring

lemma abs_realSign_le_one (x : ℝ) : |realSign x| ≤ 1 := by
  unfold realSign
  split_ifs <;> simp

lemma clampElapsed_nonneg (s : TrapezoidProfile) (c : ℝ) :
    0 ≤ s.clampElapsed c :=
  le_max_left _ _

lemma clampElapsed_le_totalTime (s : TrapezoidProfile) (c : ℝ)
    (h : 0 ≤ s.totalTime) : s.clampElapsed c ≤ s.totalTime :=
  max_le h (min_le_right _ _)

lemma clampElapsed_at_start (s : TrapezoidProfile)
    (h : 0 ≤ s.totalTime) : s.clampElapsed s.startTime = 0 := by
  unfold TrapezoidProfile.clampElapsed
  rw [sub_self, min_eq_left h, max_self]

lemma clampElapsed_of_ge (s : TrapezoidProfile) (c : ℝ)
    (h1 : s.totalTime ≤ c - s.startTime) (h2 : 0 ≤ s.totalTime) :
    s.clampElapsed c = s.totalTime := by
  unfold TrapezoidProfile.clampElapsed
  rw [min_eq_right h1, max_eq_right h2]

lemma velAt_abs_le (s : TrapezoidProfile) (hv : 0 < s.maxVelocity)
    (ht : 0 < s.timeToMaxVelocity) (hat : 0 ≤ s.accelTime)
    (hct : 0 ≤ s.cruiseTime)
    (htt : s.totalTime = 2 * s.accelTime + s.cruiseTime)
    (hmul : s.acceleration * s.accelTime ≤ s.maxVelocity)
    (e : ℝ) (he0 : 0 ≤ e) (he1 : e ≤ s.totalTime) :
    |s.velAt e| ≤ s.maxVelocity := by
  have ha : 0 < s.acceleration := div_pos hv ht
  unfold TrapezoidProfile.velAt
  split_ifs with h1 h2
  · rw [abs_of_nonneg (mul_nonneg ha.le he0)]
    nlinarith
  · rw [abs_of_pos hv]
  · push_neg at h2
    have hrem0 : 0 ≤ s.totalTime - e := by linarith
    have hrem1 : s.totalTime - e ≤ s.accelTime := by linarith
    rw [abs_of_nonneg (mul_nonneg ha.le hrem0)]
    nlinarith

lemma velHoldAt_abs_le (s : TrapezoidProfile) (hv : 0 < s.maxVelocity)
    (ht : 0 < s.timeToMaxVelocity) (hat : 0 ≤ s.accelTime)
    (hmul : s.acceleration * s.accelTime ≤ s.maxVelocity)
    (e : ℝ) (he0 : 0 ≤ e) :
    |s.velHoldAt e| ≤ s.maxVelocity := by
  have ha : 0 < s.acceleration := div_pos hv ht
  unfold TrapezoidProfile.velHoldAt
  split_ifs with h1
  · rw [abs_of_nonneg (mul_nonneg ha.le he0)]
    nlinarith
  · rw [abs_of_nonneg (mul_nonneg ha.le hat)]
    exact hmul

lemma posAt_totalTime (s : TrapezoidProfile) (hat : 0 ≤ s.accelTime)
    (hct : 0 ≤ s.cruiseTime)
    (htt : s.totalTime = 2 * s.accelTime + s.cruiseTime) :
    s.posAt s.totalTime = s.profileDist := by
  unfold TrapezoidProfile.posAt
  split_ifs with h1 h2
  · exfalso
    linarith
  · exfalso
    linarith
  · rw [sub_self]
    ring

lemma setGoal_fst_accelTime (s : TrapezoidProfile) (g c t : ℝ) :
    ((s.setGoal g c t).1).accelTime =
      profileAccelTime s.maxVelocity s.timeToMaxVelocity |g - c| := rfl

lemma setGoal_fst_cruiseTime (s : TrapezoidProfile) (g c t : ℝ) :
    ((s.setGoal g c t).1).cruiseTime =
      profileCruiseTime s.maxVelocity s.timeToMaxVelocity |g - c| := rfl

lemma setGoal_fst_totalTime (s : TrapezoidProfile) (g c t : ℝ) :
    ((s.setGoal g c t).1).totalTime =
      profileTotalTime s.maxVelocity s.timeToMaxVelocity |g - c| := rfl

lemma setGoal_fst_sign (s : TrapezoidProfile) (g c t : ℝ) :
    ((s.setGoal g c t).1).sign = realSign (g - c) := rfl

lemma setGoal_fst_startTime (s : TrapezoidProfile) (g c t : ℝ) :
    ((s.setGoal g c t).1).startTime = t := rfl

lemma setGoal_fst_lastTime (s : TrapezoidProfile) (g c t : ℝ) :
    ((s.setGoal g c t).1).lastTime = t := rfl

lemma setGoal_fst_originSource (s : TrapezoidProfile) (g c t : ℝ) :
    ((s.setGoal g c t).1).originSource = c := rfl

lemma setGoal_fst_profileDist (s : TrapezoidProfile) (g c t : ℝ) :
    ((s.setGoal g c t).1).profileDist = |g - c| := rfl

lemma setGoal_fst_maxVelocity (s : TrapezoidProfile) (g c t : ℝ) :
    ((s.setGoal g c t).1).maxVelocity = s.maxVelocity := rfl

lemma setGoal_fst_timeToMaxVelocity (s : TrapezoidProfile) (g c t : ℝ) :
    ((s.setGoal g c t).1).timeToMaxVelocity = s.timeToMaxVelocity := rfl

lemma setGoal_fst_mode (s : TrapezoidProfile) (g c t : ℝ) :
    ((s.setGoal g c t).1).mode = s.mode := rfl

lemma setGoal_fst_acceleration (s : TrapezoidProfile) (g c t : ℝ) :
    ((s.setGoal g c t).1).acceleration = s.acceleration := rfl

lemma setGoal_snd_distance (s : TrapezoidProfile) (g c t : ℝ)
    (hm : s.mode = SetpointMode.distance) : (s.setGoal g c t).2 = c := by
  simp [TrapezoidProfile.setGoal, hm]

lemma setGoal_snd_velocity (s : TrapezoidProfile) (g c t : ℝ)
    (hm : s.mode = SetpointMode.velocity) : (s.setGoal g c t).2 = 0 := by
  simp [TrapezoidProfile.setGoal, hm]

lemma updateSetpoint_fst (s : TrapezoidProfile) (a b c : ℝ) :
    (s.updateSetpoint a b c).1 = { s with lastTime := c } := rfl

lemma updateSetpoint_snd_distance (s : TrapezoidProfile) (a b c : ℝ)
    (hm : s.mode = SetpointMode.distance) :
    (s.updateSetpoint a b c).2 =
      s.originSource + s.sign * s.posAt (s.clampElapsed c) := by
  simp [TrapezoidProfile.updateSetpoint, hm]

lemma updateSetpoint_snd_velocity (s : TrapezoidProfile) (a b c : ℝ)
    (hm : s.mode = SetpointMode.velocity) :
    (s.updateSetpoint a b c).2 = s.sign * s.velHoldAt (s.clampElapsed c) := by
  simp [TrapezoidProfile.updateSetpoint, hm]

lemma atGoal_updateSetpoint (s : TrapezoidProfile) (a b q : ℝ) :
    ((s.updateSetpoint a b q).1).atGoal ↔ s.totalTime ≤ q - s.startTime :=
  Iff.rfl

lemma atGoal_def (s : TrapezoidProfile) :
    s.atGoal ↔ s.totalTime ≤ s.lastTime - s.startTime :=
  Iff.rfl

/-! ## Claim theorems -/

/-- C1: For a nonzero delta, setGoal selects the profile shape by comparing
the goal distance with distAccelDecel = maxVelocity * timeToMaxVelocity: at
or above it the session is trapezoidal with accelTime = timeToMaxVelocity,
cruiseTime = (distance - distAccelDecel) / maxVelocity and totalTime =
2 * accelTime + cruiseTime; below it the session is triangular with
accelTime = sqrt(distance * acceleration) / acceleration, cruiseTime = 0
and totalTime = 2 * accelTime.  In particular with maxVelocity = 2 and
timeToMaxVelocity = 1, a goal distance of 1 gives a triangular session and
a goal distance of 3 a trapezoidal one. -/
theorem setGoal_shape_selection (s : TrapezoidProfile) (goal curSource t : ℝ)
    (hd : goal - curSource ≠ 0) :
    (s.maxVelocity * s.timeToMaxVelocity ≤ |goal - curSource| →
       ((s.setGoal goal curSource t).1).accelTime = s.timeToMaxVelocity ∧
       ((s.setGoal goal curSource t).1).cruiseTime =
         (|goal - curSource| - s.maxVelocity * s.timeToMaxVelocity) /
           s.maxVelocity ∧
       ((s.setGoal goal curSource t).1).totalTime =
         2 * ((s.setGoal goal curSource t).1).accelTime +
           ((s.setGoal goal curSource t).1).cruiseTime) ∧
    (|goal - curSource| < s.maxVelocity * s.timeToMaxVelocity →
       ((s.setGoal goal curSource t).1).accelTime =
         Real.sqrt (|goal - curSource| * s.acceleration) / s.acceleration ∧
       ((s.setGoal goal curSource t).1).cruiseTime = 0 ∧
       ((s.setGoal goal curSource t).1).totalTime =
         2 * ((s.setGoal goal curSource t).1).accelTime) ∧
    ((trapProfileCfg 2 1).setGoal 1 0 0).1.accelTime = Real.sqrt 2 / 2 ∧
    ((trapProfileCfg 2 1).setGoal 1 0 0).1.cruiseTime = 0 ∧
    ((trapProfileCfg 2 1).setGoal 3 0 0).1.accelTime = 1 ∧
    ((trapProfileCfg 2 1).setGoal 3 0 0).1.cruiseTime = 1 / 2 := by
  have habs : |goal - curSource| ≠ 0 := abs_ne_zero.mpr hd
  refine ⟨fun h => ?_, fun h => ?_, ?_, ?_, ?_, ?_⟩
  · rw [setGoal_fst_accelTime, setGoal_fst_cruiseTime, setGoal_fst_totalTime]
    unfold profileAccelTime profileCruiseTime profileTotalTime
    rw [if_neg habs, if_neg habs, if_pos h, if_pos h]
    unfold profileAccelTime profileCruiseTime
    rw [if_neg habs, if_neg habs, if_pos h, if_pos h]
    exact ⟨rfl, rfl, rfl⟩
  · rw [setGoal_fst_accelTime, setGoal_fst_cruiseTime, setGoal_fst_totalTime]
    unfold profileAccelTime profileCruiseTime profileTotalTime
    rw [if_neg habs, if_neg habs, if_neg (not_le.mpr h), if_neg (not_le.mpr h)]
    unfold profileAccelTime profileCruiseTime TrapezoidProfile.acceleration
    rw [if_neg habs, if_neg habs, if_neg (not_le.mpr h), if_neg (not_le.mpr h)]
    exact ⟨rfl, rfl, by ring⟩
  · rw [setGoal_fst_accelTime]
    unfold profileAccelTime trapProfileCfg
    norm_num
  · rw [setGoal_fst_cruiseTime]
    unfold profileCruiseTime trapProfileCfg
    norm_num
  · rw [setGoal_fst_accelTime]
    unfold profileAccelTime trapProfileCfg
    norm_num
  · rw [setGoal_fst_cruiseTime]
    unfold profileCruiseTime trapProfileCfg
    norm_num

lemma setGoal_session_facts (s : TrapezoidProfile) (g c t : ℝ)
    (hv : 0 < s.maxVelocity) (ht : 0 < s.timeToMaxVelocity) :
    0 ≤ ((s.setGoal g c t).1).accelTime ∧
    0 ≤ ((s.setGoal g c t).1).cruiseTime ∧
    ((s.setGoal g c t).1).totalTime =
      2 * ((s.setGoal g c t).1).accelTime + ((s.setGoal g c t).1).cruiseTime ∧
    ((s.setGoal g c t).1).acceleration * ((s.setGoal g c t).1).accelTime ≤
      ((s.setGoal g c t).1).maxVelocity ∧
    0 ≤ ((s.setGoal g c t).1).totalTime := by
  rw [setGoal_fst_accelTime, setGoal_fst_cruiseTime, setGoal_fst_totalTime,
      setGoal_fst_acceleration, setGoal_fst_maxVelocity]
  refine ⟨profileAccelTime_nonneg hv ht _, profileCruiseTime_nonneg hv _,
    rfl, ?_, profileTotalTime_nonneg hv ht _⟩
  unfold TrapezoidProfile.acceleration
  exact profileAccelTime_mul_le hv ht _

lemma posAt_zero_degenerate (s : TrapezoidProfile) (hat0 : s.accelTime = 0)
    (hct0 : s.cruiseTime = 0) (htt0 : s.totalTime = 0)
    (hpd : s.profileDist = 0) : s.posAt 0 = 0 := by
  unfold TrapezoidProfile.posAt
  rw [hat0, hct0, htt0, hpd]
  norm_num

lemma posAt_zero_pos (s : TrapezoidProfile) (hat : 0 < s.accelTime) :
    s.posAt 0 = 0 := by
  unfold TrapezoidProfile.posAt
  rw [if_pos hat]
  norm_num

lemma setGoal_posAt_zero (s : TrapezoidProfile) (g c t : ℝ)
    (hv : 0 < s.maxVelocity) (ht : 0 < s.timeToMaxVelocity) :
    ((s.setGoal g c t).1).posAt 0 = 0 := by
  rcases eq_or_lt_of_le (abs_nonneg (g - c)) with h | h
  · refine posAt_zero_degenerate _ ?_ ?_ ?_ ?_
    · rw [setGoal_fst_accelTime, ← h]
      simp [profileAccelTime]
    · rw [setGoal_fst_cruiseTime, ← h]
      simp [profileCruiseTime]
    · rw [setGoal_fst_totalTime, ← h]
      simp [profileTotalTime, profileAccelTime, profileCruiseTime]
    · rw [setGoal_fst_profileDist, ← h]
  · apply posAt_zero_pos
    rw [setGoal_fst_accelTime]
    exact profileAccelTime_pos hv ht h

lemma velHoldAt_zero (s : TrapezoidProfile) (hat : 0 ≤ s.accelTime) :
    s.velHoldAt 0 = 0 := by
  unfold TrapezoidProfile.velHoldAt
  rcases lt_or_le 0 s.accelTime with h | h
  · rw [if_pos h, mul_zero]
  · have h0 : s.accelTime = 0 := le_antisymm h hat
    rw [h0, if_neg (lt_irrefl (0 : ℝ)), mul_zero]

lemma abs_hundred : |(100 : ℝ) - 0| = 100 := by
  rw [sub_zero, abs_of_pos (show (0 : ℝ) < 100 by norm_num)]

lemma trap_1002_totalTime :
    ((trapProfileCfg 10 2).setGoal 100 0 0).1.totalTime = 12 := by
  rw [setGoal_fst_totalTime, abs_hundred]
  unfold trapProfileCfg profileTotalTime profileAccelTime profileCruiseTime
  norm_num

/-- C2: under a valid configuration in distance mode, querying
updateSetpoint at an elapsed time at least totalTime returns exactly the
goal, and atGoal holds afterwards; atGoal after a query at time q holds iff
q - startTime is at least totalTime.  Concretely, with maxVelocity = 10 and
timeToMaxVelocity = 2, setGoal(100, 0, 0) gives totalTime = 12 and
updateSetpoint at curTime = 12 returns 100 with atGoal true. -/
theorem updateSetpoint_reaches_goal (s : TrapezoidProfile)
    (goal curSource t curTime q a b : ℝ)
    (hv : 0 < s.maxVelocity) (ht : 0 < s.timeToMaxVelocity)
    (hm : s.mode = SetpointMode.distance)
    (hT : ((s.setGoal goal curSource t).1).totalTime ≤ curTime - t) :
    ((((s.setGoal goal curSource t).1).updateSetpoint a b curTime).2 = goal ∧
     ((((s.setGoal goal curSource t).1).updateSetpoint a b curTime).1).atGoal ∧
     (((((s.setGoal goal curSource t).1).updateSetpoint a b q).1).atGoal ↔
       ((s.setGoal goal curSource t).1).totalTime ≤ q - t)) ∧
    ((trapProfileCfg 10 2).setGoal 100 0 0).1.totalTime = 12 ∧
    (((trapProfileCfg 10 2).setGoal 100 0 0).1.updateSetpoint 0 0 12).2 = 100 ∧
    ((((trapProfileCfg 10 2).setGoal 100 0 0).1.updateSetpoint 0 0 12).1).atGoal := by
  obtain ⟨hat, hct, htt, hmul, htt0⟩ := setGoal_session_facts s goal curSource t hv ht
  have hgen : ∀ (s1 : TrapezoidProfile) (g1 c1 t1 cT a1 b1 : ℝ),
      0 < s1.maxVelocity → 0 < s1.timeToMaxVelocity →
      s1.mode = SetpointMode.distance →
      ((s1.setGoal g1 c1 t1).1).totalTime ≤ cT - t1 →
      (((s1.setGoal g1 c1 t1).1).updateSetpoint a1 b1 cT).2 = g1 := by
    intro s1 g1 c1 t1 cT a1 b1 hv1 ht1 hm1 hT1
    obtain ⟨hat1, hct1, htt1, _, htt01⟩ := setGoal_session_facts s1 g1 c1 t1 hv1 ht1
    rw [updateSetpoint_snd_distance _ _ _ _ (by rw [setGoal_fst_mode]; exact hm1)]
    have hstart : ((s1.setGoal g1 c1 t1).1).startTime = t1 := setGoal_fst_startTime _ _ _ _
    have hclamp : ((s1.setGoal g1 c1 t1).1).clampElapsed cT =
        ((s1.setGoal g1 c1 t1).1).totalTime := by
      apply clampElapsed_of_ge _ _ _ htt01
      rw [hstart]
      exact hT1
    rw [hclamp, posAt_totalTime _ hat1 hct1 htt1, setGoal_fst_originSource,
        setGoal_fst_sign, setGoal_fst_profileDist, realSign_mul_abs]
    ring
  refine ⟨⟨hgen s goal curSource t curTime a b hv ht hm hT, ?_, ?_⟩, trap_1002_totalTime, ?_, ?_⟩
  · rw [atGoal_updateSetpoint, setGoal_fst_startTime]
    exact hT
  · rw [atGoal_updateSetpoint, setGoal_fst_startTime]
  · apply hgen
    · norm_num [trapProfileCfg]
    · norm_num [trapProfileCfg]
    · rfl
    · rw [trap_1002_totalTime]
      norm_num
  · rw [atGoal_updateSetpoint, setGoal_fst_startTime, trap_1002_totalTime]
    norm_num

/-- C3: immediately after setGoal(goal, curSource, t), updateSetpoint at the
same time t returns curSource in distance mode and 0 in velocity mode, and
setGoal itself returns that same starting value. -/
theorem setGoal_initial_setpoint (s : TrapezoidProfile) (goal curSource t a b : ℝ)
    (hv : 0 < s.maxVelocity) (ht : 0 < s.timeToMaxVelocity) :
    (s.mode = SetpointMode.distance →
       (s.setGoal goal curSource t).2 = curSource ∧
       (((s.setGoal goal curSource t).1).updateSetpoint a b t).2 = curSource) ∧
    (s.mode = SetpointMode.velocity →
       (s.setGoal goal curSource t).2 = 0 ∧
       (((s.setGoal goal curSource t).1).updateSetpoint a b t).2 = 0) := by
  obtain ⟨hat, hct, htt, hmul, htt0⟩ := setGoal_session_facts s goal curSource t hv ht
  have hclamp : ((s.setGoal goal curSource t).1).clampElapsed t = 0 := by
    have h := clampElapsed_at_start ((s.setGoal goal curSource t).1) htt0
    rw [setGoal_fst_startTime] at h
    exact h
  refine ⟨fun hm => ⟨setGoal_snd_distance _ _ _ _ hm, ?_⟩,
          fun hm => ⟨setGoal_snd_velocity _ _ _ _ hm, ?_⟩⟩
  · rw [updateSetpoint_snd_distance _ _ _ _ (by rw [setGoal_fst_mode]; exact hm),
        hclamp, setGoal_posAt_zero s goal curSource t hv ht, mul_zero, add_zero,
        setGoal_fst_originSource]
  · rw [updateSetpoint_snd_velocity _ _ _ _ (by rw [setGoal_fst_mode]; exact hm),
        hclamp, velHoldAt_zero _ hat, mul_zero]

/-- C4: for every session produced by setGoal under a valid configuration
and every queried time, the commanded velocity magnitude — the phase
velocity of the distance-mode setpoint (times the direction sign) and the
velocity-mode setpoint — never exceeds maxVelocity. -/
theorem commanded_velocity_bounded (s : TrapezoidProfile)
    (goal curSource t curTime a b : ℝ)
    (hv : 0 < s.maxVelocity) (ht : 0 < s.timeToMaxVelocity) :
    |((s.setGoal goal curSource t).1).sign *
       ((s.setGoal goal curSource t).1).velAt
         (((s.setGoal goal curSource t).1).clampElapsed curTime)| ≤
      s.maxVelocity ∧
    (s.mode = SetpointMode.velocity →
       |(((s.setGoal goal curSource t).1).updateSetpoint a b curTime).2| ≤
         s.maxVelocity) := by
  obtain ⟨hat, hct, htt, hmul, htt0⟩ := setGoal_session_facts s goal curSource t hv ht
  have hv1 : 0 < ((s.setGoal goal curSource t).1).maxVelocity := by
    rw [setGoal_fst_maxVelocity]
    exact hv
  have ht1 : 0 < ((s.setGoal goal curSource t).1).timeToMaxVelocity := by
    rw [setGoal_fst_timeToMaxVelocity]
    exact ht
  have hsign : |((s.setGoal goal curSource t).1).sign| ≤ 1 := by
    rw [setGoal_fst_sign]
    exact abs_realSign_le_one _
  constructor
  · have hvel := velAt_abs_le ((s.setGoal goal curSource t).1) hv1 ht1 hat hct htt
      hmul (((s.setGoal goal curSource t).1).clampElapsed curTime)
      (clampElapsed_nonneg _ _) (clampElapsed_le_totalTime _ _ htt0)
    rw [setGoal_fst_maxVelocity] at hvel
    rw [abs_mul]
    calc |((s.setGoal goal curSource t).1).sign| *
          |((s.setGoal goal curSource t).1).velAt
            (((s.setGoal goal curSource t).1).clampElapsed curTime)| ≤
          1 * s.maxVelocity := by
            apply mul_le_mul hsign hvel (abs_nonneg _) zero_le_one
      _ = s.maxVelocity := one_mul _
  · intro hm
    rw [updateSetpoint_snd_velocity _ _ _ _ (by rw [setGoal_fst_mode]; exact hm)]
    have hvel := velHoldAt_abs_le ((s.setGoal goal curSource t).1) hv1 ht1 hat
      hmul (((s.setGoal goal curSource t).1).clampElapsed curTime)
      (clampElapsed_nonneg _ _)
    rw [setGoal_fst_maxVelocity] at hvel
    rw [abs_mul]
    calc |((s.setGoal goal curSource t).1).sign| *
          |((s.setGoal goal curSource t).1).velHoldAt
            (((s.setGoal goal curSource t).1).clampElapsed curTime)| ≤
          1 * s.maxVelocity := by
            apply mul_le_mul hsign hvel (abs_nonneg _) zero_le_one
      _ = s.maxVelocity := one_mul _

/-- C5: a nonpositive maxVelocity or timeToMaxVelocity is rejected at
configuration time by the constructor and by the setters, while positive
values are stored exactly as given, never clamped. -/
theorem config_rejects_nonpositive (v w t2m maxV : ℝ) (s : TrapezoidProfile)
    (hv : v ≤ 0) (hw : 0 < w) :
    mkTrapezoidProfile v t2m = none ∧
    mkTrapezoidProfile maxV v = none ∧
    s.setMaxVelocity v = none ∧
    s.setTimeToMaxV v = none ∧
    s.setMaxVelocity w = some { s with maxVelocity := w } ∧
    s.setTimeToMaxV w = some { s with timeToMaxVelocity := w } := by
  refine ⟨?_, ?_, ?_, ?_, ?_, ?_⟩
  · unfold mkTrapezoidProfile
    rw [if_pos (Or.inl hv)]
  · unfold mkTrapezoidProfile
    rw [if_pos (Or.inr hv)]
  · unfold TrapezoidProfile.setMaxVelocity
    rw [if_pos hv]
  · unfold TrapezoidProfile.setTimeToMaxV
    rw [if_pos hv]
  · unfold TrapezoidProfile.setMaxVelocity
    rw [if_neg (not_le.mpr hw)]
  · unfold TrapezoidProfile.setTimeToMaxV
    rw [if_neg (not_le.mpr hw)]

/-- C6: setGoal with goal equal to curSource produces a zero-duration
session, with totalTime = 0 and atGoal immediately true; every session has
totalTime at least 0, and under a valid configuration totalTime is 0 only
in the degenerate case. -/
theorem setGoal_degenerate (s : TrapezoidProfile) (goal curSource t : ℝ)
    (hv : 0 < s.maxVelocity) (ht : 0 < s.timeToMaxVelocity) :
    (goal = curSource →
       ((s.setGoal goal curSource t).1).totalTime = 0 ∧
       ((s.setGoal goal curSource t).1).atGoal) ∧
    0 ≤ ((s.setGoal goal curSource t).1).totalTime ∧
    (((s.setGoal goal curSource t).1).totalTime = 0 → goal = curSource) := by
  obtain ⟨hat, hct, htt, hmul, htt0⟩ := setGoal_session_facts s goal curSource t hv ht
  refine ⟨fun h => ?_, htt0, fun h => ?_⟩
  · have hz : |goal - curSource| = 0 := by
      rw [h, sub_self, abs_zero]
    have h1 : ((s.setGoal goal curSource t).1).totalTime = 0 := by
      rw [setGoal_fst_totalTime, hz]
      simp [profileTotalTime, profileAccelTime, profileCruiseTime]
    refine ⟨h1, ?_⟩
    rw [atGoal_def, setGoal_fst_lastTime, setGoal_fst_startTime, h1, sub_self]
  · by_contra hne
    have hd : 0 < |goal - curSource| := abs_pos.mpr (sub_ne_zero.mpr hne)
    have hpos := profileTotalTime_pos hv ht hd
    rw [setGoal_fst_totalTime] at h
    linarith

/-- C7: a goal below curSource produces a session that mirrors the
positive-delta session with the same distance: identical accelTime,
cruiseTime and totalTime, opposite sign, and at every queried time the
setpoint offset from the origin (distance mode) or the velocity setpoint
(velocity mode) is the negation of the mirrored session's. -/
theorem setGoal_sign_symmetry (s : TrapezoidProfile) (goal curSource t curTime a b : ℝ)
    (hlt : goal < curSource) :
    ((s.setGoal goal curSource t).1).totalTime =
      ((s.setGoal (curSource + (curSource - goal)) curSource t).1).totalTime ∧
    ((s.setGoal goal curSource t).1).accelTime =
      ((s.setGoal (curSource + (curSource - goal)) curSource t).1).accelTime ∧
    ((s.setGoal goal curSource t).1).cruiseTime =
      ((s.setGoal (curSource + (curSource - goal)) curSource t).1).cruiseTime ∧
    ((s.setGoal goal curSource t).1).sign =
      -((s.setGoal (curSource + (curSource - goal)) curSource t).1).sign ∧
    (s.mode = SetpointMode.distance →
      (((s.setGoal goal curSource t).1).updateSetpoint a b curTime).2 - curSource =
        -((((s.setGoal (curSource + (curSource - goal)) curSource t).1).updateSetpoint
            a b curTime).2 - curSource)) ∧
    (s.mode = SetpointMode.velocity →
      (((s.setGoal goal curSource t).1).updateSetpoint a b curTime).2 =
        -(((s.setGoal (curSource + (curSource - goal)) curSource t).1).updateSetpoint
            a b curTime).2) := by
  have e1 : (curSource + (curSource - goal)) - curSource = curSource - goal := by
    ring
  have habs : |goal - curSource| = |(curSource + (curSource - goal)) - curSource| := by
    rw [e1, abs_of_neg (show goal - curSource < 0 by linarith),
        abs_of_pos (show 0 < curSource - goal by linarith)]
    ring
  have hsN : realSign (goal - curSource) = -1 := by
    unfold realSign
    rw [if_neg (by linarith), if_pos (by linarith)]
  have hsP : realSign ((curSource + (curSource - goal)) - curSource) = 1 := by
    unfold realSign
    rw [e1, if_pos (by linarith)]
  have hA : ((s.setGoal goal curSource t).1).accelTime =
      ((s.setGoal (curSource + (curSource - goal)) curSource t).1).accelTime := by
    rw [setGoal_fst_accelTime, setGoal_fst_accelTime, habs]
  have hC : ((s.setGoal goal curSource t).1).cruiseTime =
      ((s.setGoal (curSource + (curSource - goal)) curSource t).1).cruiseTime := by
    rw [setGoal_fst_cruiseTime, setGoal_fst_cruiseTime, habs]
  have hT : ((s.setGoal goal curSource t).1).totalTime =
      ((s.setGoal (curSource + (curSource - goal)) curSource t).1).totalTime := by
    rw [setGoal_fst_totalTime, setGoal_fst_totalTime, habs]
  have hD : ((s.setGoal goal curSource t).1).profileDist =
      ((s.setGoal (curSource + (curSource - goal)) curSource t).1).profileDist := by
    rw [setGoal_fst_profileDist, setGoal_fst_profileDist, habs]
  have hacc : ((s.setGoal goal curSource t).1).acceleration =
      ((s.setGoal (curSource + (curSource - goal)) curSource t).1).acceleration := by
    rw [setGoal_fst_acceleration, setGoal_fst_acceleration]
  have hmv : ((s.setGoal goal curSource t).1).maxVelocity =
      ((s.setGoal (curSource + (curSource - goal)) curSource t).1).maxVelocity := by
    rw [setGoal_fst_maxVelocity, setGoal_fst_maxVelocity]
  have hclampeq : ((s.setGoal goal curSource t).1).clampElapsed curTime =
      ((s.setGoal (curSource + (curSource - goal)) curSource t).1).clampElapsed
        curTime := by
    unfold TrapezoidProfile.clampElapsed
    rw [setGoal_fst_startTime, setGoal_fst_startTime, hT]
  have hpos : ((s.setGoal goal curSource t).1).posAt
      (((s.setGoal goal curSource t).1).clampElapsed curTime) =
      ((s.setGoal (curSource + (curSource - goal)) curSource t).1).posAt
        (((s.setGoal (curSource + (curSource - goal)) curSource t).1).clampElapsed
          curTime) := by
    rw [hclampeq]
    unfold TrapezoidProfile.posAt
    rw [hA, hC, hT, hD, hacc, hmv]
  have hvel : ((s.setGoal goal curSource t).1).velHoldAt
      (((s.setGoal goal curSource t).1).clampElapsed curTime) =
      ((s.setGoal (curSource + (curSource - goal)) curSource t).1).velHoldAt
        (((s.setGoal (curSource + (curSource - goal)) curSource t).1).clampElapsed
          curTime) := by
    rw [hclampeq]
    unfold TrapezoidProfile.velHoldAt
    rw [hA, hacc]
  refine ⟨hT, hA, hC, ?_, fun hm => ?_, fun hm => ?_⟩
  · rw [setGoal_fst_sign, setGoal_fst_sign, hsN, hsP]
  · rw [updateSetpoint_snd_distance _ _ _ _ (by rw [setGoal_fst_mode]; exact hm),
        updateSetpoint_snd_distance _ _ _ _ (by rw [setGoal_fst_mode]; exact hm),
        setGoal_fst_originSource, setGoal_fst_originSource,
        setGoal_fst_sign, setGoal_fst_sign, hsN, hsP, hpos]
    ring
  · rw [updateSetpoint_snd_velocity _ _ _ _ (by rw [setGoal_fst_mode]; exact hm),
        updateSetpoint_snd_velocity _ _ _ _ (by rw [setGoal_fst_mode]; exact hm),
        setGoal_fst_sign, setGoal_fst_sign, hsN, hsP, hvel]
    ring

/-- C8: with a shifter and PID (m_havePID), setGear writes the requested
gear exactly when the PID controller is disabled or the measured encoder
rate exceeds 4, and leaves the shifter unchanged when the controller is
enabled at a rate of at most 4; without an encoder the gear is always
written. -/
theorem setGear_shifts_only_when_safe (s : GearBoxState) (gear g0 : Bool)
    (hs : s.m_shifter = some g0) :
    (s.m_havePID = true →
       ((¬s.m_pid.enabled ∨ s.m_encoder.rate > 4) →
          (s.setGear gear).m_shifter = some gear) ∧
       ((s.m_pid.enabled ∧ s.m_encoder.rate ≤ 4) →
          (s.setGear gear).m_shifter = some g0)) ∧
    (s.m_havePID = false → (s.setGear gear).m_shifter = some gear) := by
  refine ⟨fun hpid => ⟨fun hcond => ?_, fun hcond => ?_⟩, fun hpid => ?_⟩
  · have hcond2 : (s.m_pid.enabled ∧ s.m_encoder.rate > 4) ∨ ¬s.m_pid.enabled := by
      rcases hcond with h | h
      · exact Or.inr h
      · by_cases he : s.m_pid.enabled
        · exact Or.inl ⟨he, h⟩
        · exact Or.inr he
    simp only [GearBoxState.setGear, hs, hpid]
    rw [if_pos trivial, if_pos hcond2]
  · have hcond2 : ¬((s.m_pid.enabled ∧ s.m_encoder.rate > 4) ∨ ¬s.m_pid.enabled) := by
      rintro (⟨he, hr⟩ | hne)
      · exact absurd hr (not_lt.mpr hcond.2)
      · exact hne hcond.1
    simp only [GearBoxState.setGear, hs, hpid]
    rw [if_pos trivial, if_neg hcond2]
    exact hs
  · simp [GearBoxState.setGear, hs, hpid]

/-- C9: with PID, setSetpoint applies the new setpoint and enables the
controller only when it is currently disabled; when the controller is
already enabled the call changes nothing, so getSetpoint still returns the
previous value. -/
theorem setSetpoint_only_when_disabled (s : GearBoxState) (sp : ℚ)
    (hpid : s.m_havePID = true) :
    (s.m_pid.enabled = false →
       (s.setSetpoint sp).m_pid.setpoint = sp ∧
       (s.setSetpoint sp).m_pid.enabled = true) ∧
    (s.m_pid.enabled = true →
       s.setSetpoint sp = s ∧
       (s.setSetpoint sp).getSetpoint = s.getSetpoint) := by
  refine ⟨fun he => ?_, fun he => ?_⟩
  · constructor
    · simp [GearBoxState.setSetpoint, he, hpid]
    · simp [GearBoxState.setSetpoint, he, hpid]
  · constructor
    · simp [GearBoxState.setSetpoint, he]
    · simp [GearBoxState.setSetpoint, he]

/-- C10: a GearBox constructed without an encoder (encA or encB zero, so no
PID) has getSetpoint, getDistance and getRate returning 0, and setPID,
setF and resetEncoder as no-ops, after any sequence of prior calls. -/
theorem no_encoder_accessors_zero (shifterChan encA encB m1 m2 m3 : ℕ)
    (ops : List GearBoxOp) (p i d f : ℚ)
    (h : encA = 0 ∨ encB = 0) :
    ((gearBoxNew shifterChan encA encB m1 m2 m3).run ops).getSetpoint = 0 ∧
    ((gearBoxNew shifterChan encA encB m1 m2 m3).run ops).getDistance = 0 ∧
    ((gearBoxNew shifterChan encA encB m1 m2 m3).run ops).getRate = 0 ∧
    ((gearBoxNew shifterChan encA encB m1 m2 m3).run ops).setPID p i d =
      (gearBoxNew shifterChan encA encB m1 m2 m3).run ops ∧
    ((gearBoxNew shifterChan encA encB m1 m2 m3).run ops).setF f =
      (gearBoxNew shifterChan encA encB m1 m2 m3).run ops ∧
    ((gearBoxNew shifterChan encA encB m1 m2 m3).run ops).resetEncoder =
      (gearBoxNew shifterChan encA encB m1 m2 m3).run ops := by
  have h0 : (gearBoxNew shifterChan encA encB m1 m2 m3).m_havePID = false := by
    unfold gearBoxNew
    rcases h with h | h <;> simp [h]
  have hrun : ((gearBoxNew shifterChan encA encB m1 m2 m3).run ops).m_havePID = false := by
    rw [run_m_havePID, h0]
  refine ⟨?_, ?_, ?_, ?_, ?_, ?_⟩ <;>
    simp [GearBoxState.getSetpoint, GearBoxState.getDistance, GearBoxState.getRate,
      GearBoxState.setPID, GearBoxState.setF, GearBoxState.resetEncoder, hrun]

/-! ## Witnesses -/

theorem setGoal_shape_selection_witness :
    ((3 : ℝ) - 0 ≠ 0) ∧
    ((trapProfileCfg 2 1).setGoal 3 0 0).1.accelTime = 1 :=
  ⟨by norm_num,
   (setGoal_shape_selection (trapProfileCfg 2 1) 3 0 0 (by norm_num)).2.2.2.2.1⟩

theorem updateSetpoint_reaches_goal_witness :
    (0 : ℝ) < 10 ∧
    (((trapProfileCfg 10 2).setGoal 100 0 0).1.updateSetpoint 0 0 12).2 = 100 :=
  ⟨by norm_num,
   (updateSetpoint_reaches_goal (trapProfileCfg 10 2) 100 0 0 12 12 0 0
     (by norm_num [trapProfileCfg]) (by norm_num [trapProfileCfg]) rfl
     (by rw [trap_1002_totalTime]; norm_num)).2.2.1⟩

theorem setGoal_initial_setpoint_witness :
    (0 : ℝ) < 2 ∧
    (((trapProfileCfg 2 1).setGoal 3 5 7).1.updateSetpoint 0 0 7).2 = 5 :=
  ⟨by norm_num,
   ((setGoal_initial_setpoint (trapProfileCfg 2 1) 3 5 7 0 0
     (by norm_num [trapProfileCfg]) (by norm_num [trapProfileCfg])).1 rfl).2⟩

theorem commanded_velocity_bounded_witness :
    (0 : ℝ) < 10 ∧
    |((trapProfileCfg 10 2).setGoal 100 0 0).1.sign *
       ((trapProfileCfg 10 2).setGoal 100 0 0).1.velAt
         (((trapProfileCfg 10 2).setGoal 100 0 0).1.clampElapsed 1)| ≤
      (trapProfileCfg 10 2).maxVelocity :=
  ⟨by norm_num,
   (commanded_velocity_bounded (trapProfileCfg 10 2) 100 0 0 1 0 0
     (by norm_num [trapProfileCfg]) (by norm_num [trapProfileCfg])).1⟩

theorem config_rejects_nonpositive_witness :
    (-1 : ℝ) ≤ 0 ∧ mkTrapezoidProfile (-1) 2 = none :=
  ⟨by norm_num,
   (config_rejects_nonpositive (-1) 3 2 2 (trapProfileCfg 1 1)
     (by norm_num) (by norm_num)).1⟩

theorem setGoal_degenerate_witness :
    (0 : ℝ) < 2 ∧ ((trapProfileCfg 2 1).setGoal 5 5 0).1.totalTime = 0 :=
  ⟨by norm_num,
   ((setGoal_degenerate (trapProfileCfg 2 1) 5 5 0
     (by norm_num [trapProfileCfg]) (by norm_num [trapProfileCfg])).1 rfl).1⟩

theorem setGoal_sign_symmetry_witness :
    (0 : ℝ) < 1 ∧
    ((trapProfileCfg 2 1).setGoal 0 1 0).1.totalTime =
      ((trapProfileCfg 2 1).setGoal (1 + (1 - 0)) 1 0).1.totalTime :=
  ⟨by norm_num,
   (setGoal_sign_symmetry (trapProfileCfg 2 1) 0 1 0 0 0 0 (by norm_num)).1⟩

theorem setGear_shifts_only_when_safe_witness :
    gearBoxExample.m_shifter = some false ∧
    (gearBoxExample.setGear true).m_shifter = some true :=
  ⟨rfl,
   ((setGear_shifts_only_when_safe gearBoxExample true false rfl).1 rfl).1
     (Or.inl (by decide))⟩

theorem setSetpoint_only_when_disabled_witness :
    gearBoxExample.m_havePID = true ∧
    (gearBoxExample.setSetpoint 7).m_pid.setpoint = 7 :=
  ⟨rfl, ((setSetpoint_only_when_disabled gearBoxExample 7 rfl).1 rfl).1⟩

theorem no_encoder_accessors_zero_witness :
    ((1 : ℕ) = 0 ∨ (0 : ℕ) = 0) ∧
    ((gearBoxNew 1 1 0 2 0 0).run [GearBoxOp.opSetSetpoint 5]).getSetpoint = 0 :=
  ⟨Or.inr rfl,
   (no_encoder_accessors_zero 1 1 0 2 0 0 [GearBoxOp.opSetSetpoint 5] 1 2 3 4
     (Or.inr rfl)).1⟩
